import Mathlib

/-
  Verification development for the ModManager repository.

  The Python source is shallowly embedded: Python strings are lists of
  characters, dictionaries are association lists, SQLite values are an
  inductive type with NULL, exceptions are Option/Except, and the
  process-wide mutable state (the dispatcher subscription table, the
  database file, the filesystem) is threaded explicitly.

  Sources embedded here:
    - utils/dispatcher.py            (dispatch, register, unregister)
    - utils/database/games.py        (search_games, insert_game, update_game)
    - utils/database/mods.py         (search_mods, update_mod)
    - utils/database/service.py      (the event handler glue)
    - utils/sqlite.py                (create_insert_sql_string)
    - utils/mod_installer.py         (install_mod, uninstall_mod, update_mod)
    - utils/files.py                 (filesystem collaborator operations)
-/

namespace ModManager

/-- Python strings are modelled as lists of characters so that list lemmas
apply to the slicing and concatenation the source performs on SQL text. -/
abbrev Str := List Char

/-- Python s[:-5]: all characters but the last five. -/
def pySliceDropLast5 (s : Str) : Str := s.take (s.length - 5)

/-- Helper: the separator-joined rendering used for SQL fragments, with the
separator placed between consecutive elements only. -/
def sepJoin (sep : Str) : List Str → Str
  | [] => []
  | [x] => x
  | x :: y :: t => x ++ sep ++ sepJoin sep (y :: t)

/-- A SQLite storage value: NULL, an integer, or a text value.  Python None
binds to NULL, bool binds to an integer 0 or 1, str binds to text. -/
inductive SqlVal where
  | null : SqlVal
  | int : Int → SqlVal
  | text : Str → SqlVal
deriving DecidableEq, Repr

/-- SQL equality as used in a WHERE clause: comparisons against NULL are
never true (SQLite three-valued logic), values of distinct storage classes
compare unequal. -/
def sqlEqB : SqlVal → SqlVal → Bool
  | SqlVal.int a, SqlVal.int b => a = b
  | SqlVal.text a, SqlVal.text b => a = b
  | _, _ => false

/-- A Python value appearing as an optional filter or update parameter. -/
inductive PyVal where
  | int : Int → PyVal
  | str : Str → PyVal
  | bool : Bool → PyVal
deriving DecidableEq, Repr

/-- Python truthiness of an optional parameter: None, 0, empty string and
False are falsy; everything else is truthy. -/
def truthy : Option PyVal → Bool
  | none => false
  | some (PyVal.int i) => i ≠ 0
  | some (PyVal.str s) => s ≠ []
  | some (PyVal.bool b) => b

/-- Binding a Python value as a SQLite parameter. -/
def bindVal : PyVal → SqlVal
  | PyVal.int i => SqlVal.int i
  | PyVal.str s => SqlVal.text s
  | PyVal.bool b => SqlVal.int (if b then 1 else 0)

/-- Binding an optional Python value: None binds to NULL. -/
def bindOpt : Option PyVal → SqlVal
  | none => SqlVal.null
  | some v => bindVal v

/-! ## Event dispatcher (utils/dispatcher.py)

The source keeps a process-wide dict mapping event name to namespace to an
ordered list of subscription dicts; per-bucket order is append order.  The
embedding flattens this to one ordered list of subscriptions; the bucket of
an (event, namespace) pair is the sublist with those keys, in the same
order as the source's inner list.  uuid4 registration ids are modelled by
a fresh-id counter (the ids are opaque and never reused in the source).
Callbacks are modelled as data: a function name (the key used for the
result dict) and a pure payload-to-result map where a None result stands
for a raised exception that dispatch catches. -/

/-- A registered callback: its Python function name and its behaviour.
A run result of none models the callback raising an exception. -/
structure Callback (π ρ : Type) where
  fname : Str
  run : π → Option ρ

/-- One entry of the subscription table. -/
structure Subscription (π ρ : Type) where
  event : Str
  ns : Str
  cb : Callback π ρ
  persistent : Bool
  rid : Nat

/-- The dispatcher's state: the SUBSCRIPTIONS table flattened, plus the
fresh registration-id counter. -/
structure DState (π ρ : Type) where
  subs : List (Subscription π ρ)
  nextId : Nat

/-- The ordered list of subscriptions for one (event, namespace) pair. -/
def bucket (s : DState π ρ) (e n : Str) : List (Subscription π ρ) :=
  s.subs.filter (fun r => decide (r.event = e ∧ r.ns = n))

/-- register (dispatcher.py 94-143): always appends a new subscription to
the (event, namespace) bucket and returns a fresh registration id. -/
def register (s : DState π ρ) (e : Str) (cb : Callback π ρ) (n : Str)
    (persistent : Bool) : Nat × DState π ρ :=
  (s.nextId,
    { subs := s.subs ++ [⟨e, n, cb, persistent, s.nextId⟩],
      nextId := s.nextId + 1 })

/-- Removes the first subscription carrying the given registration id;
none when no subscription matches. -/
def removeFirstRid : List (Subscription π ρ) → Nat → Option (List (Subscription π ρ))
  | [], _ => none
  | x :: xs, k =>
    if x.rid = k then some xs
    else (removeFirstRid xs k).map (fun l => x :: l)

/-- unregister (dispatcher.py 146-175): scans all subscriptions, removes
the first one whose registration id matches, and reports whether a match
was found. -/
def unregister (s : DState π ρ) (k : Nat) : Bool × DState π ρ :=
  match removeFirstRid s.subs k with
  | some l => (true, { s with subs := l })
  | none => (false, s)

/-- Result-dict insertion with Python dict semantics: an existing key is
updated in place, a new key is appended. -/
def dictInsert : List (Str × ρ) → Str → ρ → List (Str × ρ)
  | [], k, v => [(k, v)]
  | (k1, v1) :: rest, k, v =>
    if k1 = k then (k1, v) :: rest else (k1, v1) :: dictInsert rest k v

/-- Lookup in a result dict. -/
def dictLookup : List (Str × ρ) → Str → Option ρ
  | [], _ => none
  | (k1, v1) :: rest, k => if k1 = k then some v1 else dictLookup rest k

/-- The observable outcome of a dispatch call: the updated subscription
table, the result mapping, and the ghost trace of the registration ids
whose callbacks were invoked, in invocation order. -/
structure DispatchOut (π ρ : Type) where
  state : DState π ρ
  results : List (Str × ρ)
  trace : List Nat

/-- One subscriber's effect on the result dict: a callback that returns a
value is recorded under its function name; one that raises (run = none)
is caught and contributes nothing. -/
def resultStep (p : π) (acc : List (Str × ρ)) (sub : Subscription π ρ) : List (Str × ρ) :=
  match sub.cb.run p with
  | some v => dictInsert acc sub.cb.fname v
  | none => acc

/-- The result dict accumulated over the bucket, in invocation order. -/
def dispatchResults (b : List (Subscription π ρ)) (p : π) : List (Str × ρ) :=
  b.foldl (resultStep p) []

/-- dispatch (dispatcher.py 22-91): returns an empty mapping when the
(event, namespace) bucket is absent; otherwise invokes every subscriber in
bucket order, catching exceptions per subscriber, collects the
registration ids of non-persistent subscriptions during the loop, and
unregisters them after the loop. -/
def dispatch (s : DState π ρ) (e n : Str) (p : π) : DispatchOut π ρ :=
  let b := bucket s e n
  let nonPersistent := (b.filter (fun sub => !sub.persistent)).map (fun sub => sub.rid)
  let s1 := nonPersistent.foldl (fun st k => (unregister st k).2) s
  { state := s1
    results := dispatchResults b p
    trace := b.map (fun sub => sub.rid) }

/-! ### Dispatcher lemmas -/

/-- Removing the first subscription with a given id, total version: the
list is unchanged when no subscription matches. -/
def eraseFirstRid (l : List (Subscription π ρ)) (k : Nat) : List (Subscription π ρ) :=
  match removeFirstRid l k with
  | some l2 => l2
  | none => l

lemma unregister_snd (s : DState π ρ) (k : Nat) :
    (unregister s k).2 = { s with subs := eraseFirstRid s.subs k } := by
  unfold unregister eraseFirstRid
  cases removeFirstRid s.subs k <;> rfl

lemma foldl_unregister_subs (R : List Nat) (s : DState π ρ) :
    R.foldl (fun st k => (unregister st k).2) s
      = { s with subs := R.foldl eraseFirstRid s.subs } := by
  induction R generalizing s with
  | nil => rfl
  | cons k R ih => rw [List.foldl_cons, ih, unregister_snd, List.foldl_cons]

lemma eraseFirstRid_cons_self (x : Subscription π ρ) (xs : List (Subscription π ρ)) :
    eraseFirstRid (x :: xs) x.rid = xs := by
  simp [eraseFirstRid, removeFirstRid]

lemma eraseFirstRid_cons_ne (x : Subscription π ρ) (xs : List (Subscription π ρ))
    (k : Nat) (h : x.rid ≠ k) :
    eraseFirstRid (x :: xs) k = x :: eraseFirstRid xs k := by
  simp only [eraseFirstRid, removeFirstRid, if_neg h]
  cases hx : removeFirstRid xs k <;> simp [hx]

lemma foldl_erase_cons_notin (x : Subscription π ρ) (R : List Nat)
    (xs : List (Subscription π ρ)) (h : ∀ k ∈ R, x.rid ≠ k) :
    R.foldl eraseFirstRid (x :: xs) = x :: R.foldl eraseFirstRid xs := by
  induction R generalizing xs with
  | nil => rfl
  | cons k R ih =>
    simp only [List.foldl_cons]
    rw [eraseFirstRid_cons_ne x xs k (h k (by simp))]
    exact ih _ (fun k2 hk2 => h k2 (by simp [hk2]))

lemma foldl_erase_filter (P : Subscription π ρ → Bool)
    (l : List (Subscription π ρ)) (h : (l.map (fun r => r.rid)).Nodup) :
    ((l.filter P).map (fun r => r.rid)).foldl eraseFirstRid l
      = l.filter (fun r => !(P r)) := by
  induction l with
  | nil => rfl
  | cons x xs ih =>
    simp only [List.map_cons, List.nodup_cons] at h
    obtain ⟨hx, hnd⟩ := h
    by_cases hP : P x
    · simp only [List.filter_cons, hP, if_pos, List.map_cons, List.foldl_cons,
        eraseFirstRid_cons_self, Bool.not_true, Bool.false_eq_true, if_false]
      exact ih hnd
    · have hR : ∀ k ∈ ((xs.filter P).map (fun r => r.rid)), x.rid ≠ k := by
        intro k hk heq
        apply hx
        rcases List.mem_map.mp hk with ⟨r, hr, hrk⟩
        exact heq ▸ hrk ▸ List.mem_map_of_mem _ (List.mem_of_mem_filter hr)
      simp only [List.filter_cons, hP, Bool.false_eq_true, if_false, Bool.not_false,
        if_pos]
      rw [foldl_erase_cons_notin x _ xs hR]
      rw [ih hnd]

/-- C5: after any dispatch(event, namespace) call, the subscription table
equals the previous table with exactly the non-persistent subscriptions of
that (event, namespace) bucket removed: every such subscription is absent
(including those whose callback raised, since the removal list is built
outside the try block), and every other subscription — persistent ones in
this bucket and everything in other buckets — survives in its original
order.  The hypothesis that registration ids are pairwise distinct holds
for the source, which uses fresh uuid4 ids. -/
theorem dispatch_removes_exactly_nonpersistent (s : DState π ρ) (e n : Str) (p : π)
    (h : (s.subs.map (fun r => r.rid)).Nodup) :
    (dispatch s e n p).state.subs
      = s.subs.filter (fun r => !(decide (r.event = e ∧ r.ns = n) && !r.persistent)) := by
  have h1 : (dispatch s e n p).state
      = (((bucket s e n).filter (fun sub => !sub.persistent)).map
          (fun sub => sub.rid)).foldl (fun st k => (unregister st k).2) s := rfl
  rw [h1, foldl_unregister_subs]
  show (((bucket s e n).filter (fun sub => !sub.persistent)).map
      (fun sub => sub.rid)).foldl eraseFirstRid s.subs = _
  rw [bucket, List.filter_filter]
  have hco : ∀ r : Subscription π ρ,
      (!r.persistent && decide (r.event = e ∧ r.ns = n))
        = (decide (r.event = e ∧ r.ns = n) && !r.persistent) := by
    intro r
    exact Bool.and_comm _ _
  rw [List.filter_congr (fun r _ => hco r)]
  exact foldl_erase_filter _ s.subs h

/-- Concrete dispatcher callbacks used by the witnesses: one that returns
its payload plus one, and one that always raises. -/
def cbOk : Callback Nat Nat := ⟨['f'], fun p => some (p + 1)⟩

def cbBad : Callback Nat Nat := ⟨['g'], fun _ => none⟩

/-- A concrete dispatcher state: a non-persistent raising subscription and
a persistent succeeding one, both in the ("E", "G") bucket. -/
def wState : DState Nat Nat :=
  { subs := [⟨['E'], ['G'], cbBad, false, 0⟩, ⟨['E'], ['G'], cbOk, true, 1⟩],
    nextId := 2 }

theorem dispatch_removes_exactly_nonpersistent_witness :
    ((wState.subs.map (fun r => r.rid)).Nodup) ∧
      (dispatch wState ['E'] ['G'] 3).state.subs
        = wState.subs.filter
            (fun r => !(decide (r.event = ['E'] ∧ r.ns = ['G']) && !r.persistent)) :=
  ⟨by decide, dispatch_removes_exactly_nonpersistent wState ['E'] ['G'] 3 (by decide)⟩

lemma dictLookup_dictInsert (d : List (Str × ρ)) (f k : Str) (v : ρ) :
    dictLookup (dictInsert d f v) k = if k = f then some v else dictLookup d k := by
  induction d with
  | nil =>
    by_cases h : k = f
    · subst h
      simp [dictInsert, dictLookup]
    · simp [dictInsert, dictLookup, h, Ne.symm h]
  | cons kv rest ih =>
    obtain ⟨k1, v1⟩ := kv
    by_cases h1 : k1 = f
    · subst h1
      by_cases h2 : k = k1
      · subst h2
        simp [dictInsert, dictLookup]
      · simp [dictInsert, dictLookup, h2, Ne.symm h2]
    · by_cases h2 : k = k1
      · subst h2
        have hkf : ¬ k = f := h1
        simp [dictInsert, dictLookup, h1, hkf]
      · simp [dictInsert, dictLookup, h1, h2, Ne.symm h2, ih]

lemma getLast?_cons_or (v : α) (l : List α) :
    (v :: l).getLast? = (l.getLast?).or (some v) := by
  induction l generalizing v with
  | nil => simp [List.getLast?]
  | cons w t ih =>
    rw [List.getLast?_cons_cons, ih w, Option.or_assoc]
    rfl

lemma mem_of_getLast?_some (v : α) (l : List α) (h : l.getLast? = some v) : v ∈ l := by
  cases l with
  | nil => simp [List.getLast?] at h
  | cons a t =>
    have hm := List.getLast_mem (l := a :: t) (by simp)
    rw [List.getLast?_eq_getLast _ (by simp), Option.some_inj] at h
    exact h ▸ hm

/-- The per-key selection a bucket makes on the result dict: the value a
subscription would record under key k, none when it raises or its
function name differs. -/
def resultSel (p : π) (k : Str) (sub : Subscription π ρ) : Option ρ :=
  if sub.cb.fname = k then sub.cb.run p else none

lemma dictLookup_resultStep (p : π) (k : Str) (sub : Subscription π ρ)
    (acc : List (Str × ρ)) :
    dictLookup (resultStep p acc sub) k
      = (resultSel p k sub).or (dictLookup acc k) := by
  rcases hrun : sub.cb.run p with _ | w
  · by_cases hf : sub.cb.fname = k <;>
      simp [resultStep, resultSel, hrun, hf]
  · by_cases hf : sub.cb.fname = k
    · subst hf
      simp [resultStep, resultSel, hrun, dictLookup_dictInsert]
    · simp [resultStep, resultSel, hrun, hf, dictLookup_dictInsert, Ne.symm hf]

lemma foldl_results_getLast (p : π) (k : Str) (b : List (Subscription π ρ))
    (acc : List (Str × ρ)) :
    dictLookup (b.foldl (resultStep p) acc) k
      = ((b.filterMap (resultSel p k)).getLast?).or (dictLookup acc k) := by
  induction b generalizing acc with
  | nil => simp
  | cons x rest ih =>
    rw [List.foldl_cons, ih, dictLookup_resultStep]
    rcases hsel : resultSel p k x with _ | v
    · simp [List.filterMap_cons, hsel]
    · simp only [List.filterMap_cons, hsel]
      rw [getLast?_cons_or, Option.or_assoc]

lemma dispatchResults_lookup (p : π) (k : Str) (b : List (Subscription π ρ)) :
    dictLookup (dispatchResults b p) k = (b.filterMap (resultSel p k)).getLast? := by
  have h := foldl_results_getLast p k b ([] : List (Str × ρ))
  rw [dispatchResults, h]
  rcases (b.filterMap (resultSel p k)).getLast? with _ | u <;> rfl

/-- C6: during dispatch a raising callback is caught and contributes no
entry to the result mapping (every entry of the result mapping comes from
a subscriber of the bucket whose callback returned that value), every
subscriber of the (event, namespace) bucket is still invoked — the
invocation trace lists them all in order regardless of earlier raises —
and with zero registrations the result mapping is empty.  dispatch itself
is a total function into plain results: no exception value escapes it. -/
theorem dispatch_isolates_subscriber_exceptions (s : DState π ρ) (e n : Str) (p : π) :
    (bucket s e n = [] → (dispatch s e n p).results = [])
      ∧ (dispatch s e n p).trace = (bucket s e n).map (fun sub => sub.rid)
      ∧ (∀ k v, dictLookup (dispatch s e n p).results k = some v →
          ∃ sub ∈ bucket s e n, sub.cb.fname = k ∧ sub.cb.run p = some v) := by
  refine ⟨fun hb => ?_, rfl, fun k v hv => ?_⟩
  · show dispatchResults (bucket s e n) p = []
    rw [hb]
    rfl
  · have hv2 : ((bucket s e n).filterMap (resultSel p k)).getLast? = some v := by
      have := dispatchResults_lookup p k (bucket s e n)
      exact this ▸ hv
    have hmem : v ∈ (bucket s e n).filterMap (resultSel p k) :=
      mem_of_getLast?_some v _ hv2
    rcases List.mem_filterMap.mp hmem with ⟨sub, hsub, hsel⟩
    refine ⟨sub, hsub, ?_, ?_⟩
    · by_contra hf
      simp [resultSel, hf] at hsel
    · by_cases hf : sub.cb.fname = k
      · simpa [resultSel, hf] using hsel
      · simp [resultSel, hf] at hsel

theorem dispatch_isolates_subscriber_exceptions_witness :
    (dispatch wState ['X'] ['G'] 3).results = []
      ∧ ∃ sub ∈ bucket wState ['E'] ['G'],
          sub.cb.fname = ['f'] ∧ sub.cb.run 3 = some 4 :=
  ⟨(dispatch_isolates_subscriber_exceptions wState ['X'] ['G'] 3).1 rfl,
    (dispatch_isolates_subscriber_exceptions wState ['E'] ['G'] 3).2.2 ['f'] 4 rfl⟩

/-- C7: register appends to the (event, namespace) bucket, so dispatch
invokes callbacks synchronously in exactly registration order (the trace
lists the bucket's registration ids in order), and the result mapping is
keyed by the callback's function name: the entry for a name is the value
of the last invoked callback with that name that returned a value, so a
later callback sharing a name overwrites the earlier entry. -/
theorem dispatch_order_and_name_keyed_results (s : DState π ρ) (e n : Str)
    (cb : Callback π ρ) (per : Bool) (p : π) (k : Str) :
    (bucket (register s e cb n per).2 e n
        = bucket s e n ++ [⟨e, n, cb, per, s.nextId⟩])
      ∧ (dispatch s e n p).trace = (bucket s e n).map (fun sub => sub.rid)
      ∧ dictLookup (dispatch s e n p).results k
          = ((bucket s e n).filterMap (resultSel p k)).getLast? := by
  refine ⟨?_, rfl, dispatchResults_lookup p k (bucket s e n)⟩
  simp [bucket, register, List.filter_append]

/-! ## Database rows (utils/database/tables.py)

The games table has columns id, code, last_loaded_at, mod_archive_location,
mod_install_location, name, nexus_id, path, registered_at; the mods table
additionally has game_code, game_id, installed, symlink_target, symlinks,
version.  Rows are modelled as records of SQLite values. -/

inductive GameCol where
  | id | code | last_loaded_at | mod_archive_location | mod_install_location
  | name | nexus_id | path | registered_at
deriving DecidableEq, Repr

/-- The column name as it appears in SQL text. -/
def GameCol.colName : GameCol → Str
  | .id => "id".data
  | .code => "code".data
  | .last_loaded_at => "last_loaded_at".data
  | .mod_archive_location => "mod_archive_location".data
  | .mod_install_location => "mod_install_location".data
  | .name => "name".data
  | .nexus_id => "nexus_id".data
  | .path => "path".data
  | .registered_at => "registered_at".data

structure GameRow where
  id : SqlVal
  code : SqlVal
  last_loaded_at : SqlVal
  mod_archive_location : SqlVal
  mod_install_location : SqlVal
  name : SqlVal
  nexus_id : SqlVal
  path : SqlVal
  registered_at : SqlVal
deriving DecidableEq, Repr

def GameRow.getCol (r : GameRow) : GameCol → SqlVal
  | .id => r.id
  | .code => r.code
  | .last_loaded_at => r.last_loaded_at
  | .mod_archive_location => r.mod_archive_location
  | .mod_install_location => r.mod_install_location
  | .name => r.name
  | .nexus_id => r.nexus_id
  | .path => r.path
  | .registered_at => r.registered_at

inductive ModCol where
  | id | code | game_code | game_id | installed | mod_archive_location
  | mod_install_location | name | nexus_id | path | registered_at
  | symlink_target | symlinks | version
deriving DecidableEq, Repr

def ModCol.colName : ModCol → Str
  | .id => "id".data
  | .code => "code".data
  | .game_code => "game_code".data
  | .game_id => "game_id".data
  | .installed => "installed".data
  | .mod_archive_location => "mod_archive_location".data
  | .mod_install_location => "mod_install_location".data
  | .name => "name".data
  | .nexus_id => "nexus_id".data
  | .path => "path".data
  | .registered_at => "registered_at".data
  | .symlink_target => "symlink_target".data
  | .symlinks => "symlinks".data
  | .version => "version".data

structure ModRow where
  id : SqlVal
  code : SqlVal
  game_code : SqlVal
  game_id : SqlVal
  installed : SqlVal
  mod_archive_location : SqlVal
  mod_install_location : SqlVal
  name : SqlVal
  nexus_id : SqlVal
  path : SqlVal
  registered_at : SqlVal
  symlink_target : SqlVal
  symlinks : SqlVal
  version : SqlVal
deriving DecidableEq, Repr

def ModRow.getCol (r : ModRow) : ModCol → SqlVal
  | .id => r.id
  | .code => r.code
  | .game_code => r.game_code
  | .game_id => r.game_id
  | .installed => r.installed
  | .mod_archive_location => r.mod_archive_location
  | .mod_install_location => r.mod_install_location
  | .name => r.name
  | .nexus_id => r.nexus_id
  | .path => r.path
  | .registered_at => r.registered_at
  | .symlink_target => r.symlink_target
  | .symlinks => r.symlinks
  | .version => r.version

def ModRow.setCol (r : ModRow) : ModCol → SqlVal → ModRow
  | .id, v => { r with id := v }
  | .code, v => { r with code := v }
  | .game_code, v => { r with game_code := v }
  | .game_id, v => { r with game_id := v }
  | .installed, v => { r with installed := v }
  | .mod_archive_location, v => { r with mod_archive_location := v }
  | .mod_install_location, v => { r with mod_install_location := v }
  | .name, v => { r with name := v }
  | .nexus_id, v => { r with nexus_id := v }
  | .path, v => { r with path := v }
  | .registered_at, v => { r with registered_at := v }
  | .symlink_target, v => { r with symlink_target := v }
  | .symlinks, v => { r with symlinks := v }
  | .version, v => { r with version := v }

def GameRow.setCol (r : GameRow) : GameCol → SqlVal → GameRow
  | .id, v => { r with id := v }
  | .code, v => { r with code := v }
  | .last_loaded_at, v => { r with last_loaded_at := v }
  | .mod_archive_location, v => { r with mod_archive_location := v }
  | .mod_install_location, v => { r with mod_install_location := v }
  | .name, v => { r with name := v }
  | .nexus_id, v => { r with nexus_id := v }
  | .path, v => { r with path := v }
  | .registered_at, v => { r with registered_at := v }

/-! ## The SQLite collaborator model for SELECT queries

The database driver is an external collaborator (utils/sqlite.py wraps
aiosqlite).  Its model receives the literal SQL text the embedded code
built, parses it as the grammar of the SELECT statements this module can
emit, and evaluates the WHERE conditions with SQL equality semantics; any
query text outside that grammar, any unknown column, and any placeholder
arity mismatch makes the driver raise, which fetch_all catches and turns
into None. -/

/-- Removes the given prefix from a string, none when it is not a prefix. -/
def stripPref : Str → Str → Option Str
  | [], r => some r
  | _ :: _, [] => none
  | p :: ps, c :: cs => if p = c then stripPref ps cs else none

/-- Parses a nonempty " AND "-separated sequence of "column = ?" conditions,
returning the column names. -/
def parseConds : Nat → Str → Option (List Str)
  | 0, _ => none
  | fuel + 1, r =>
    let col := r.takeWhile (fun c => c ≠ ' ')
    let rest := r.dropWhile (fun c => c ≠ ' ')
    if col = [] then none
    else
      match stripPref " = ?".data rest with
      | none => none
      | some [] => some [col]
      | some (c :: cs) =>
        match stripPref " AND ".data (c :: cs) with
        | none => none
        | some rest3 => (parseConds fuel rest3).map (fun l => col :: l)

/-- Parses the SELECT statements this module emits over the given table:
either the bare select-all or a WHERE clause of equality conditions. -/
def parseSelect (table : Str) (q : Str) : Option (List Str) :=
  if q = "SELECT * FROM ".data ++ table then some []
  else
    match stripPref ("SELECT * FROM ".data ++ table ++ " WHERE ".data) q with
    | none => none
    | some rest => parseConds (rest.length + 1) rest

def modColOfName (s : Str) : Option ModCol :=
  ([ModCol.id, ModCol.code, ModCol.game_code, ModCol.game_id, ModCol.installed,
    ModCol.mod_archive_location, ModCol.mod_install_location, ModCol.name,
    ModCol.nexus_id, ModCol.path, ModCol.registered_at, ModCol.symlink_target,
    ModCol.symlinks, ModCol.version]).find? (fun c => c.colName = s)

def gameColOfName (s : Str) : Option GameCol :=
  ([GameCol.id, GameCol.code, GameCol.last_loaded_at, GameCol.mod_archive_location,
    GameCol.mod_install_location, GameCol.name, GameCol.nexus_id, GameCol.path,
    GameCol.registered_at]).find? (fun c => c.colName = s)

/-- Resolves a parsed column-name list against a table's schema; an unknown
column name is a query error. -/
def resolveCols (lookupCol : Str → Option κ) : List Str → Option (List κ)
  | [] => some []
  | s :: rest =>
    match lookupCol s, resolveCols lookupCol rest with
    | some c, some cs => some (c :: cs)
    | _, _ => none

/-- SQL evaluation of a conjunction of equality conditions on one row. -/
def rowMatchesM (r : ModRow) (conds : List (ModCol × SqlVal)) : Bool :=
  conds.all (fun c => sqlEqB (r.getCol c.1) c.2)

def rowMatchesG (r : GameRow) (conds : List (GameCol × SqlVal)) : Bool :=
  conds.all (fun c => sqlEqB (r.getCol c.1) c.2)

/-- The collaborator executing fetch_all against the mods table: the rows
satisfying the parsed conditions, or none when the driver raises. -/
def fetchAllMods (q : Str) (ps : List SqlVal) (db : List ModRow) : Option (List ModRow) :=
  match parseSelect "mods".data q with
  | none => none
  | some colStrs =>
    match resolveCols modColOfName colStrs with
    | none => none
    | some cols =>
      if cols.length = ps.length then
        some (db.filter (fun r => rowMatchesM r (cols.zip ps)))
      else none

def fetchAllGames (q : Str) (ps : List SqlVal) (db : List GameRow) : Option (List GameRow) :=
  match parseSelect "games".data q with
  | none => none
  | some colStrs =>
    match resolveCols gameColOfName colStrs with
    | none => none
    | some cols =>
      if cols.length = ps.length then
        some (db.filter (fun r => rowMatchesG r (cols.zip ps)))
      else none

/-! ## search_mods (mods.py 394-542) and search_games (games.py 323-382) -/

/-- The optional filter parameters of search_mods, in source order. -/
structure ModFilters where
  id : Option PyVal := none
  code : Option PyVal := none
  game_code : Option PyVal := none
  game_id : Option PyVal := none
  installed : Option PyVal := none
  mod_archive_location : Option PyVal := none
  mod_install_location : Option PyVal := none
  name : Option PyVal := none
  nexus_id : Option PyVal := none
  path : Option PyVal := none
  registered_at : Option PyVal := none
  symlink_target : Option PyVal := none
  symlinks : Option PyVal := none
  version : Option PyVal := none

/-- One filter slot of search_mods: the truthiness test the source applies
before appending "col = ? AND " to the query and the value to params. -/
def slot (c : ModCol) (o : Option PyVal) : Option (ModCol × PyVal) :=
  match o with
  | some v => if truthy (some v) then some (c, v) else none
  | none => none

/-- The fourteen condition slots of search_mods, in the exact order the
source tests them. -/
def modsSlots (f : ModFilters) : List (Option (ModCol × PyVal)) :=
  [slot ModCol.id f.id,
   slot ModCol.code f.code,
   slot ModCol.game_code f.game_code,
   slot ModCol.game_id f.game_id,
   slot ModCol.installed f.installed,
   slot ModCol.mod_archive_location f.mod_archive_location,
   slot ModCol.mod_install_location f.mod_install_location,
   slot ModCol.name f.name,
   slot ModCol.nexus_id f.nexus_id,
   slot ModCol.path f.path,
   slot ModCol.registered_at f.registered_at,
   slot ModCol.symlink_target f.symlink_target,
   slot ModCol.symlinks f.symlinks,
   slot ModCol.version f.version]

/-- The conditions search_mods appends: the truthy slots in source order. -/
def modsConds (f : ModFilters) : List (ModCol × PyVal) :=
  (modsSlots f).filterMap id

/-- The query text and parameter list search_mods builds: starting from
"SELECT * FROM mods WHERE ", each truthy filter appends "col = ? AND " and
its value, and the final line removes the last five characters
(query[:-5]). -/
def searchModsQuery (f : ModFilters) : Str × List SqlVal :=
  (pySliceDropLast5 ("SELECT * FROM mods WHERE ".data
      ++ (modsConds f).foldr (fun c acc => c.1.colName ++ " = ? AND ".data ++ acc) []),
    (modsConds f).map (fun c => bindVal c.2))

/-- search_mods: builds the query, runs fetch_all, and returns the rows;
a driver exception or an empty result both yield the empty list. -/
def search_mods (f : ModFilters) (db : List ModRow) : List ModRow :=
  match fetchAllMods (searchModsQuery f).1 (searchModsQuery f).2 db with
  | none => []
  | some rows => rows

/-- The optional filter parameters of search_games. -/
structure GameFilters where
  id : Option PyVal := none
  code : Option PyVal := none
  last_loaded_at : Option PyVal := none
  mod_archive_location : Option PyVal := none
  mod_install_location : Option PyVal := none
  name : Option PyVal := none
  nexus_id : Option PyVal := none
  path : Option PyVal := none
  registered_at : Option PyVal := none

/-- search_games: the source ignores every filter parameter except id and
always executes the fixed query "SELECT * FROM games WHERE id = ?" with
params [id]; an absent id binds NULL. -/
def search_games (f : GameFilters) (db : List GameRow) : List GameRow :=
  match fetchAllGames "SELECT * FROM games WHERE id = ?".data [bindOpt f.id] db with
  | none => []
  | some rows => rows

/-! ### Search lemmas -/

/-- The canonical rendering of a nonempty conjunction of equality
conditions, as SQLite receives it. -/
def renderConds (cols : List Str) : Str :=
  sepJoin " AND ".data (cols.map (fun c => c ++ " = ?".data))

lemma takeWhile_append_all (p : α → Bool) (l r : List α) (h : ∀ a ∈ l, p a = true) :
    (l ++ r).takeWhile p = l ++ r.takeWhile p := by
  induction l with
  | nil => simp
  | cons a t ih =>
    rw [List.cons_append, List.takeWhile_cons, if_pos (h a (by simp)), List.cons_append,
      ih (fun a ha => h a (by simp [ha]))]

lemma dropWhile_append_all (p : α → Bool) (l r : List α) (h : ∀ a ∈ l, p a = true) :
    (l ++ r).dropWhile p = r.dropWhile p := by
  induction l with
  | nil => simp
  | cons a t ih =>
    rw [List.cons_append, List.dropWhile_cons, if_pos (h a (by simp))]
    exact ih (fun a ha => h a (by simp [ha]))

lemma stripPref_append (p r : Str) : stripPref p (p ++ r) = some r := by
  induction p with
  | nil => rfl
  | cons c ps ih => simp [stripPref, ih]

lemma renderConds_single (x : Str) : renderConds [x] = x ++ " = ?".data := rfl

lemma renderConds_cons_cons (x y : Str) (t : List Str) :
    renderConds (x :: y :: t)
      = (x ++ " = ?".data) ++ (" AND ".data ++ renderConds (y :: t)) := by
  show sepJoin " AND ".data ((x ++ " = ?".data) :: (y ++ " = ?".data)
      :: t.map (fun c => c ++ " = ?".data)) = _
  rw [sepJoin, List.append_assoc]
  rfl

lemma foldr_frags_eq_render (l : List (ModCol × PyVal)) (h : l ≠ []) :
    l.foldr (fun c acc => c.1.colName ++ " = ? AND ".data ++ acc) []
      = renderConds (l.map (fun c => c.1.colName)) ++ " AND ".data := by
  induction l with
  | nil => exact absurd rfl h
  | cons x rest ih =>
    have h9 : (" = ? AND ".data : Str) = " = ?".data ++ " AND ".data := rfl
    cases rest with
    | nil =>
      show x.1.colName ++ " = ? AND ".data ++ []
          = renderConds [x.1.colName] ++ " AND ".data
      rw [List.append_nil, renderConds_single, h9, List.append_assoc]
    | cons y t =>
      show x.1.colName ++ " = ? AND ".data
            ++ ((y :: t).foldr (fun c acc => c.1.colName ++ " = ? AND ".data ++ acc) [])
          = renderConds (x.1.colName :: (y :: t).map (fun c => c.1.colName))
            ++ " AND ".data
      rw [ih (by simp), List.map_cons, renderConds_cons_cons, h9]
      simp [List.append_assoc]

lemma pySliceDropLast5_append_and (s : Str) :
    pySliceDropLast5 (s ++ " AND ".data) = s := by
  have h5 : (" AND ".data : Str).length = 5 := rfl
  rw [pySliceDropLast5, List.length_append, h5, Nat.add_sub_cancel]
  exact List.take_left s _

lemma renderConds_length_ge (cols : List Str) : cols.length ≤ (renderConds cols).length := by
  induction cols with
  | nil => simp
  | cons x rest ih =>
    cases rest with
    | nil =>
      show 1 ≤ (renderConds [x]).length
      rw [renderConds_single, List.length_append]
      have h4 : ((" = ?".data : Str)).length = 4 := rfl
      omega
    | cons y t =>
      rw [renderConds_cons_cons]
      have h4 : ((" = ?".data : Str)).length = 4 := rfl
      have h5 : ((" AND ".data : Str)).length = 5 := rfl
      simp only [List.length_append, List.length_cons, h4, h5]
      simp only [List.length_cons] at ih
      omega

lemma parseConds_render (cols : List Str) (hne : cols ≠ [])
    (hg : ∀ c ∈ cols, c ≠ [] ∧ ∀ ch ∈ c, ch ≠ ' ') :
    ∀ fuel, cols.length ≤ fuel → parseConds fuel (renderConds cols) = some cols := by
  induction cols with
  | nil => exact absurd rfl hne
  | cons x rest ih =>
    intro fuel hfuel
    obtain ⟨f, rfl⟩ : ∃ f, fuel = f + 1 := by
      cases fuel with
      | zero => simp at hfuel
      | succ f => exact ⟨f, rfl⟩
    obtain ⟨hxne, hxsp⟩ := hg x (by simp)
    have hall : ∀ a ∈ x, (fun c => decide (c ≠ ' ')) a = true := by
      intro a ha
      simpa using hxsp a ha
    cases rest with
    | nil =>
      have hrc : renderConds [x] = x ++ " = ?".data := rfl
      rw [hrc]
      show parseConds (f + 1) (x ++ " = ?".data) = some [x]
      simp only [parseConds]
      rw [takeWhile_append_all _ x _ hall, dropWhile_append_all _ x _ hall]
      have ht : (" = ?".data : Str).takeWhile (fun c => decide (c ≠ ' ')) = [] := rfl
      have hd : (" = ?".data : Str).dropWhile (fun c => decide (c ≠ ' ')) = " = ?".data := rfl
      rw [ht, hd, List.append_nil]
      rw [if_neg hxne]
      have : stripPref " = ?".data " = ?".data = some [] := by
        have := stripPref_append " = ?".data []
        rwa [List.append_nil] at this
      rw [this]
    | cons y t =>
      rw [renderConds_cons_cons, List.append_assoc]
      show parseConds (f + 1)
          (x ++ (" = ?".data ++ (" AND ".data ++ renderConds (y :: t)))) = _
      simp only [parseConds]
      rw [takeWhile_append_all _ x _ hall, dropWhile_append_all _ x _ hall]
      have ht : ((" = ?".data ++ (" AND ".data ++ renderConds (y :: t))) : Str).takeWhile
          (fun c => decide (c ≠ ' ')) = [] := rfl
      have hd : ((" = ?".data ++ (" AND ".data ++ renderConds (y :: t))) : Str).dropWhile
          (fun c => decide (c ≠ ' '))
          = " = ?".data ++ (" AND ".data ++ renderConds (y :: t)) := rfl
      rw [ht, hd, List.append_nil, if_neg hxne, stripPref_append " = ?".data _]
      show (parseConds f (renderConds (y :: t))).map (fun l => x :: l)
          = some (x :: y :: t)
      rw [ih (by simp) (fun c hc => hg c (by simp [hc])) f (by
        simpa using Nat.lt_succ_iff.mp (Nat.lt_of_lt_of_le (Nat.lt_succ_self _) hfuel))]
      rfl

lemma modCol_colName_good (c : ModCol) :
    c.colName ≠ [] ∧ ∀ ch ∈ c.colName, ch ≠ ' ' := by
  cases c <;> decide

lemma modColOfName_colName (c : ModCol) : modColOfName c.colName = some c := by
  cases c <;> rfl

lemma resolveCols_map_colName (l : List (ModCol × PyVal)) :
    resolveCols modColOfName (l.map (fun c => c.1.colName))
      = some (l.map (fun c => c.1)) := by
  induction l with
  | nil => rfl
  | cons x rest ih => simp [resolveCols, modColOfName_colName, ih]

lemma searchModsQuery_fst (f : ModFilters) (h : modsConds f ≠ []) :
    (searchModsQuery f).1 = "SELECT * FROM mods WHERE ".data
      ++ renderConds ((modsConds f).map (fun c => c.1.colName)) := by
  show pySliceDropLast5 ("SELECT * FROM mods WHERE ".data
      ++ (modsConds f).foldr (fun c acc => c.1.colName ++ " = ? AND ".data ++ acc) []) = _
  rw [foldr_frags_eq_render _ h, ← List.append_assoc, pySliceDropLast5_append_and]

lemma parseSelect_searchMods (f : ModFilters) (h : modsConds f ≠ []) :
    parseSelect "mods".data (searchModsQuery f).1
      = some ((modsConds f).map (fun c => c.1.colName)) := by
  rw [searchModsQuery_fst f h, parseSelect]
  rw [if_neg ?hne]
  case hne =>
    intro heq
    have hlen := congrArg List.length heq
    rw [List.length_append] at hlen
    have h25 : ("SELECT * FROM mods WHERE ".data : Str).length = 25 := rfl
    have h18 : (("SELECT * FROM ".data ++ "mods".data : Str)).length = 18 := rfl
    rw [h25, h18] at hlen
    omega
  have hpre : ("SELECT * FROM ".data ++ ("mods".data ++ " WHERE ".data) : Str)
      = "SELECT * FROM mods WHERE ".data := rfl
  rw [List.append_assoc, hpre, stripPref_append]
  show parseConds ((renderConds ((modsConds f).map (fun c => c.1.colName))).length + 1)
      (renderConds ((modsConds f).map (fun c => c.1.colName))) = _
  exact parseConds_render _ (by simpa [List.map_eq_nil_iff] using h)
    (fun c hc => by
      rcases List.mem_map.mp hc with ⟨a, _, rfl⟩
      exact modCol_colName_good a.1)
    _ (Nat.le_succ_of_le (renderConds_length_ge _))

lemma fetchAllMods_search (f : ModFilters) (db : List ModRow) (h : modsConds f ≠ []) :
    fetchAllMods (searchModsQuery f).1 (searchModsQuery f).2 db
      = some (db.filter (fun r => rowMatchesM r
          ((modsConds f).map (fun c => (c.1, bindVal c.2))))) := by
  rw [fetchAllMods, parseSelect_searchMods f h]
  show (match resolveCols modColOfName ((modsConds f).map (fun c => c.1.colName)) with
    | none => none
    | some cols =>
      if cols.length = ((searchModsQuery f).2).length then
        some (db.filter (fun r => rowMatchesM r (cols.zip (searchModsQuery f).2)))
      else none) = _
  rw [resolveCols_map_colName]
  show (if ((modsConds f).map (fun c => c.1)).length = ((searchModsQuery f).2).length then
      some (db.filter (fun r => rowMatchesM r
        (((modsConds f).map (fun c => c.1)).zip (searchModsQuery f).2)))
    else none) = _
  rw [if_pos (by simp [searchModsQuery])]
  have hzip : ((modsConds f).map (fun c => c.1)).zip ((modsConds f).map (fun c => bindVal c.2))
      = (modsConds f).map (fun c => (c.1, bindVal c.2)) := List.zip_map' _ _ _
  show some (db.filter (fun r => rowMatchesM r
      (((modsConds f).map (fun c => c.1)).zip ((modsConds f).map (fun c => bindVal c.2))))) = _
  rw [hzip]

lemma search_mods_eq_filter (f : ModFilters) (db : List ModRow) (h : modsConds f ≠ []) :
    search_mods f db = db.filter (fun r => rowMatchesM r
        ((modsConds f).map (fun c => (c.1, bindVal c.2)))) := by
  rw [search_mods, fetchAllMods_search f db h]

lemma search_mods_no_conds (f : ModFilters) (db : List ModRow) (h : modsConds f = []) :
    search_mods f db = [] := by
  have hq : (searchModsQuery f).1 = "SELECT * FROM mods W".data := by
    show pySliceDropLast5 ("SELECT * FROM mods WHERE ".data
        ++ (modsConds f).foldr (fun c acc => c.1.colName ++ " = ? AND ".data ++ acc) []) = _
    rw [h]
    rfl
  rw [search_mods, hq]
  rfl

lemma sqlEqB_null_right (v : SqlVal) : sqlEqB v SqlVal.null = false := by
  cases v <;> rfl

lemma search_games_eq (g : GameFilters) (db : List GameRow) :
    search_games g db
      = db.filter (fun r => sqlEqB (r.getCol GameCol.id) (bindOpt g.id)) := by
  have hp : parseSelect "games".data "SELECT * FROM games WHERE id = ?".data
      = some ["id".data] := by decide
  have hf : fetchAllGames "SELECT * FROM games WHERE id = ?".data [bindOpt g.id] db
      = some (db.filter (fun r => rowMatchesG r [(GameCol.id, bindOpt g.id)])) := by
    rw [fetchAllGames, hp]
    rfl
  rw [search_games, hf]
  show db.filter (fun r => rowMatchesG r [(GameCol.id, bindOpt g.id)]) = _
  exact List.filter_congr (fun r _ => by simp [rowMatchesG])

/-- C1 (corrected): the claimed search semantics only partially match the
code.  For Mods: each truthy filter is ANDed as an exact-match equality
constraint and falsy or absent filters impose no constraint, but a search
with zero truthy filters builds a malformed query (the [:-5] slice eats
part of WHERE) and returns the empty list, not every stored row.  For
Games: search ignores every filter except id and always constrains
id = <supplied id>; with id absent the query compares id with NULL and
returns the empty list. -/
theorem search_filters_semantics (f : ModFilters) (g : GameFilters)
    (db : List ModRow) (gdb : List GameRow) :
    (modsConds f ≠ [] → search_mods f db
        = db.filter (fun r => rowMatchesM r
            ((modsConds f).map (fun c => (c.1, bindVal c.2)))))
      ∧ (modsConds f = [] → search_mods f db = [])
      ∧ search_games g gdb
          = gdb.filter (fun r => sqlEqB (r.getCol GameCol.id) (bindOpt g.id))
      ∧ (g.id = none → search_games g gdb = []) := by
  refine ⟨search_mods_eq_filter f db, search_mods_no_conds f db,
    search_games_eq g gdb, fun hid => ?_⟩
  rw [search_games_eq g gdb, hid]
  show gdb.filter (fun r => sqlEqB (r.getCol GameCol.id) SqlVal.null) = []
  rw [List.filter_congr (fun r _ => sqlEqB_null_right (r.getCol GameCol.id))]
  exact List.filter_false gdb

/-- Concrete rows and filters exercising the search semantics. -/
def wModRow : ModRow :=
  { id := SqlVal.int 1, code := SqlVal.text "mc".data,
    game_code := SqlVal.text "gc".data, game_id := SqlVal.int 1,
    installed := SqlVal.int 0,
    mod_archive_location := SqlVal.text "/archives/a.zip".data,
    mod_install_location := SqlVal.text "/installed/a".data,
    name := SqlVal.text "Alpha".data, nexus_id := SqlVal.text [],
    path := SqlVal.text "/mods/a".data,
    registered_at := SqlVal.text "2025-08-15".data,
    symlink_target := SqlVal.text "/game/Data".data,
    symlinks := SqlVal.text "\x7b\x7d".data, version := SqlVal.text [] }

def wModRow2 : ModRow :=
  { id := SqlVal.int 2, code := SqlVal.text "mc2".data,
    game_code := SqlVal.text "gc".data, game_id := SqlVal.int 1,
    installed := SqlVal.int 0,
    mod_archive_location := SqlVal.text "/archives/b.zip".data,
    mod_install_location := SqlVal.text "/installed/b".data,
    name := SqlVal.text "Beta".data, nexus_id := SqlVal.text [],
    path := SqlVal.text "/mods/b".data,
    registered_at := SqlVal.text "2025-08-15".data,
    symlink_target := SqlVal.text "/game/Data".data,
    symlinks := SqlVal.text "\x7b\x7d".data, version := SqlVal.text [] }

def wGameRow : GameRow :=
  { id := SqlVal.int 1, code := SqlVal.text "abc".data,
    last_loaded_at := SqlVal.text "2025-08-15".data,
    mod_archive_location := SqlVal.text "/archives".data,
    mod_install_location := SqlVal.text "/installed".data,
    name := SqlVal.text "A".data, nexus_id := SqlVal.text [],
    path := SqlVal.text "/games/a".data,
    registered_at := SqlVal.text "2025-08-15".data }

def wModFilters : ModFilters :=
  { name := some (PyVal.str "Alpha".data), nexus_id := some (PyVal.str []) }

theorem search_filters_semantics_witness :
    modsConds wModFilters ≠ []
      ∧ search_mods wModFilters [wModRow, wModRow2] = [wModRow]
      ∧ modsConds ({} : ModFilters) = []
      ∧ search_mods ({} : ModFilters) [wModRow] = []
      ∧ search_games { name := some (PyVal.str "A".data) } [wGameRow] = [] := by
  refine ⟨by decide, ?_, by decide, ?_, ?_⟩
  · exact ((search_filters_semantics wModFilters {} [wModRow, wModRow2] []).1
      (by decide)).trans (by decide)
  · exact (search_filters_semantics ({} : ModFilters) {} [wModRow] []).2.1 (by decide)
  · exact ((search_filters_semantics ({} : ModFilters)
        { name := some (PyVal.str "A".data) } [] [wGameRow]).2.2.2 rfl)

/-- C1 counterexample: with no filter parameters supplied, search_mods on
a one-row table returns the empty list rather than every stored row; and
search_games given only a name filter that the stored row matches still
returns the empty list, because the ignored id filter binds NULL. -/
theorem search_filters_claim_counterexample :
    search_mods ({} : ModFilters) [wModRow] = []
      ∧ search_games { name := some (PyVal.str "A".data) } [wGameRow] = []
      ∧ wGameRow.name = SqlVal.text "A".data
      ∧ wModRow ∈ [wModRow] := by
  refine ⟨by decide, by decide, rfl, by simp⟩

/-! ## insert_game (games.py 253-320) and create_insert_sql_string
(sqlite.py 138-164)

get_sqlite_column (sqlite.py 416-483) returns a dict with keys, in
insertion order: name, type, default, foreign_key, nullable, on_delete,
on_update, primary_key, unique.  create_insert_sql_string expects a table
dict of shape produced by get_sqlite_table, with keys "name" and
"columns"; insert_game instead passes GAMES_TABLE, which is the raw
mapping from column key to column dict from tables.py.  Under Python duck
typing, table["name"] then yields the column dict of the "name" column —
interpolated into the f-string as its repr — and table.get("columns", {})
yields the empty default, so the generated statement lists no columns and
no placeholders. -/

/-- The dict produced by get_sqlite_column, with the source's defaults. -/
structure SqliteColumn where
  name : Str
  type : Str
  defaultVal : Option Str := none
  foreign_key : Option Str := none
  nullable : Bool := true
  on_delete : Str := "NO_ACTION".data
  on_update : Str := "NO_ACTION".data
  primary_key : Bool := false
  unique : Bool := false
deriving DecidableEq, Repr

def pyReprStrLit (s : Str) : Str := "'".data ++ s ++ "'".data

def pyReprOptStr : Option Str → Str
  | none => "None".data
  | some s => pyReprStrLit s

def pyReprBool : Bool → Str
  | true => "True".data
  | false => "False".data

/-- Python repr of a get_sqlite_column dict, keys in insertion order. -/
def pyReprColumn (c : SqliteColumn) : Str :=
  "\x7b'name': ".data ++ pyReprStrLit c.name
    ++ ", 'type': ".data ++ pyReprStrLit c.type
    ++ ", 'default': ".data ++ pyReprOptStr c.defaultVal
    ++ ", 'foreign_key': ".data ++ pyReprOptStr c.foreign_key
    ++ ", 'nullable': ".data ++ pyReprBool c.nullable
    ++ ", 'on_delete': ".data ++ pyReprStrLit c.on_delete
    ++ ", 'on_update': ".data ++ pyReprStrLit c.on_update
    ++ ", 'primary_key': ".data ++ pyReprBool c.primary_key
    ++ ", 'unique': ".data ++ pyReprBool c.unique
    ++ "\x7d".data

/-- Shorthand for a get_sqlite_column call supplying name, type,
primary_key and unique, everything else defaulted. -/
def gcol (nm ty : Str) (pk uq : Bool) : SqliteColumn :=
  { name := nm, type := ty, primary_key := pk, unique := uq }

/-- GAMES_TABLE (tables.py 16-58): the raw column-key to column mapping. -/
def GAMES_TABLE : List (Str × SqliteColumn) :=
  [("id".data, gcol "id".data "INTEGER".data true true),
   ("code".data, gcol "code".data "TEXT".data false true),
   ("last_loaded_at".data, gcol "last_loaded_at".data "TIMESTAMP".data false false),
   ("mod_archive_location".data, gcol "mod_archive_location".data "TEXT".data false false),
   ("mod_install_location".data, gcol "mod_install_location".data "TEXT".data false false),
   ("name".data, gcol "name".data "TEXT".data false true),
   ("nexus_id".data, gcol "nexus_id".data "TEXT".data false false),
   ("path".data, gcol "path".data "TEXT".data false true),
   ("registered_at".data, gcol "registered_at".data "TIMESTAMP".data false false)]

/-- The two shapes of dict reaching create_insert_sql_string: the
get_sqlite_table shape, or a raw column mapping as insert_game passes. -/
inductive PyTableArg where
  | columnsMap (m : List (Str × SqliteColumn))
  | tableDict (name : Str) (columns : List SqliteColumn)

def pyDictClmLookup (m : List (Str × SqliteColumn)) (k : Str) : Option SqliteColumn :=
  (m.find? (fun kv => kv.1 = k)).map (fun kv => kv.2)

/-- What the f-string interpolates for table["name"]: for the table-dict
shape the table name, for a raw column mapping the repr of the column
stored under the key "name" (a KeyError, none, when absent). -/
def tableNameStrOfArg : PyTableArg → Option Str
  | PyTableArg.columnsMap m => (pyDictClmLookup m "name".data).map pyReprColumn
  | PyTableArg.tableDict nm _ => some nm

/-- What table.get("columns", {}) iterates: the empty default for a raw
column mapping. -/
def colsOfArg : PyTableArg → List SqliteColumn
  | PyTableArg.columnsMap _ => []
  | PyTableArg.tableDict _ cols => cols

/-- create_insert_sql_string: INSERT INTO {table["name"]} (cols) VALUES
(placeholders); none models the KeyError on a mapping without "name". -/
def create_insert_sql_string (t : PyTableArg) : Option Str :=
  (tableNameStrOfArg t).map (fun nm =>
    "INSERT INTO ".data ++ nm ++ " (".data
      ++ sepJoin ", ".data ((colsOfArg t).map (fun c => c.name))
      ++ ") VALUES (".data
      ++ sepJoin ", ".data ((colsOfArg t).map (fun _ => "?".data))
      ++ ")".data)

/-- The well-formed INSERT statement for the games table, as
create_insert_sql_string would produce from the get_sqlite_table shape. -/
def gamesInsertCanonical : Str :=
  "INSERT INTO games (id, code, last_loaded_at, mod_archive_location, mod_install_location, name, nexus_id, path, registered_at) VALUES (?, ?, ?, ?, ?, ?, ?, ?, ?)".data

/-- The collaborator executing insert against the games table: it accepts
exactly the canonical INSERT for the table's nine columns with an integer
primary key and the unique constraints satisfied; any other statement or
arity makes the driver raise, which insert (sqlite.py 517-568) catches,
returning None. -/
def sqliteInsertGames (q : Str) (ps : List SqlVal) (db : List GameRow) :
    Option (Int × List GameRow) :=
  if q = gamesInsertCanonical then
    match ps with
    | [SqlVal.int i, c, lla, mal, mil, nm, nx, p, ra] =>
      if db.any (fun r => r.id = SqlVal.int i || r.code = c || r.name = nm || r.path = p)
      then none
      else some (i, db ++ [GameRow.mk (SqlVal.int i) c lla mal mil nm nx p ra])
    | _ => none
  else none

/-- Python name.replace(" ", "_").lower(). -/
def pySnakeLower (s : Str) : Str :=
  s.map (fun ch => if ch = ' ' then '_' else ch.toLower)

/-- insert_game (games.py 253-320): builds the INSERT statement from
GAMES_TABLE — the raw column mapping, not a get_sqlite_table dict — and
executes it with the eight parameters [code, timestamp, archives/code,
installed/code, name, snake_name, path, timestamp].  The fresh uuid4 code
and the timestamp are external inputs; archivesRoot and installedRoot
stand for the environment-derived MOD_ARCHIVES_PATH and
MOD_INSTALLED_PATH. -/
def insert_game (nm path code timestamp archivesRoot installedRoot : Str)
    (db : List GameRow) : Option Int × List GameRow :=
  match create_insert_sql_string (PyTableArg.columnsMap GAMES_TABLE) with
  | none => (none, db)
  | some q =>
    match sqliteInsertGames q
        [SqlVal.text code, SqlVal.text timestamp,
         SqlVal.text (archivesRoot ++ "/".data ++ code),
         SqlVal.text (installedRoot ++ "/".data ++ code),
         SqlVal.text nm, SqlVal.text (pySnakeLower nm), SqlVal.text path,
         SqlVal.text timestamp] db with
    | none => (none, db)
    | some (i, db2) => (some i, db2)

/-- get_game_by_id (games.py 101-134): fetch_one of the fixed query
"SELECT * FROM games WHERE id = ?"; the first row whose id equals the
bound parameter. -/
def get_game_by_id (i : Int) (db : List GameRow) : Option GameRow :=
  db.find? (fun r => sqlEqB r.id (SqlVal.int i))

/-- The REQUEST_INSERT_GAME handler (service.py 278-316): inserts, and on
a non-None id re-fetches the row by id; returns None when insert failed. -/
def onRequestInsertGame (nm path code timestamp archivesRoot installedRoot : Str)
    (db : List GameRow) : Option GameRow × List GameRow :=
  match insert_game nm path code timestamp archivesRoot installedRoot db with
  | (none, db2) => (none, db2)
  | (some i, db2) => (get_game_by_id i db2, db2)

/-- C2 (code bug): the insert-game round trip never succeeds.  insert_game
passes GAMES_TABLE — a raw column mapping — to create_insert_sql_string,
which expects the get_sqlite_table shape; the generated statement is
INSERT INTO {repr of the name column dict} () VALUES () — an invalid
statement naming no table, no columns, and zero placeholders for eight
parameters — so the driver raises, insert_game returns None with the table
unchanged, and the handler returns None instead of the full record the
claim describes.  The defect contradicts insert_game's own docstring and
the correct get_sqlite_table wrapping used by create_games_table and
insert_mod. -/
theorem insert_game_round_trip_fails (nm path code ts ar ir : Str)
    (db : List GameRow) :
    insert_game nm path code ts ar ir db = (none, db)
      ∧ onRequestInsertGame nm path code ts ar ir db = (none, db)
      ∧ create_insert_sql_string (PyTableArg.columnsMap GAMES_TABLE)
          ≠ some gamesInsertCanonical := by
  have hq : create_insert_sql_string (PyTableArg.columnsMap GAMES_TABLE)
      ≠ some gamesInsertCanonical := by decide
  have hins : insert_game nm path code ts ar ir db = (none, db) := by
    rw [insert_game]
    rfl
  refine ⟨hins, ?_, hq⟩
  rw [onRequestInsertGame, hins]

/-! ## update_game (games.py 385-527) and update_mod (mods.py 545-702)

Both first fetch the row by id and report failure when it is absent; both
then build an update_values dict from the supplied optional parameters and
report failure when it stays empty; only then do they execute an UPDATE.
Quirks kept from the source: update_game stores the code parameter under
the key "uuid" and both archive and install locations under the single key
"mod_folder_location" (neither is a games column); update_mod computes the
values for mod_archive_location, mod_install_location and symlink_target
from the path parameter (a copy-paste slip), which is None in the install
flow.  Paths and timestamps are modelled as already-normalized posix and
ISO strings. -/

/-- The value Python computes for the slipped branches of update_mod:
Path(path).as_posix() when path is a Path or str, otherwise path itself —
None binding NULL. -/
def pyPathOpt : Option Str → SqlVal
  | some p => SqlVal.text p
  | none => SqlVal.null

/-- Python json.dumps escaping of a string: backslash and double quote. -/
def jsonEscape (s : Str) : Str :=
  s.foldr (fun ch acc =>
    if ch = '"' ∨ ch = '\\' then '\\' :: ch :: acc else ch :: acc) []

/-- Python json.dumps of a string-to-string dict, with the default
separators. -/
def jsonDumps (m : List (Str × Str)) : Str :=
  "\x7b".data
    ++ sepJoin ", ".data (m.map (fun kv =>
        "\"".data ++ jsonEscape kv.1 ++ "\": \"".data ++ jsonEscape kv.2 ++ "\"".data))
    ++ "\x7d".data

/-- The optional parameters of update_game. -/
structure UpdateGameArgs where
  code : Option Str := none
  last_loaded_at : Option Str := none
  mod_archive_location : Option Str := none
  mod_install_location : Option Str := none
  name : Option Str := none
  nexus_id : Option Str := none
  path : Option Str := none
  registered_at : Option Str := none

/-- One conditional insertion into an update_values dict. -/
def updStep (d : List (Str × SqlVal)) (k : Str) : Option SqlVal → List (Str × SqlVal)
  | some v => dictInsert d k v
  | none => d

/-- The update_values dict update_game builds, in source order, with the
source's key names: code goes under "uuid", both locations under
"mod_folder_location". -/
def gamesUpdateValues (a : UpdateGameArgs) : List (Str × SqlVal) :=
  let d := updStep [] "uuid".data (a.code.map SqlVal.text)
  let d := updStep d "last_loaded_at".data (a.last_loaded_at.map SqlVal.text)
  let d := updStep d "mod_folder_location".data (a.mod_archive_location.map SqlVal.text)
  let d := updStep d "mod_folder_location".data (a.mod_install_location.map SqlVal.text)
  let d := updStep d "name".data (a.name.map SqlVal.text)
  let d := updStep d "nexus_id".data (a.nexus_id.map SqlVal.text)
  let d := updStep d "path".data (a.path.map SqlVal.text)
  updStep d "registered_at".data (a.registered_at.map SqlVal.text)

/-- The optional parameters of update_mod. -/
structure UpdateModArgs where
  code : Option Str := none
  game_code : Option Str := none
  game_id : Option Int := none
  installed : Option Bool := none
  mod_archive_location : Option Str := none
  mod_install_location : Option Str := none
  name : Option Str := none
  nexus_id : Option Str := none
  path : Option Str := none
  registered_at : Option Str := none
  symlink_target : Option Str := none
  symlinks : Option (List (Str × Str)) := none
  version : Option Str := none

/-- The update_values dict update_mod builds, in source order.  The
mod_archive_location, mod_install_location and symlink_target branches
trigger on their own parameter but store a value computed from the path
parameter, exactly as the source does. -/
def modsUpdateValues (a : UpdateModArgs) : List (Str × SqlVal) :=
  let d := updStep [] "code".data (a.code.map SqlVal.text)
  let d := updStep d "game_code".data (a.game_code.map SqlVal.text)
  let d := updStep d "game_id".data (a.game_id.map SqlVal.int)
  let d := updStep d "installed".data
    (a.installed.map (fun b => SqlVal.int (if b then 1 else 0)))
  let d := updStep d "mod_archive_location".data
    (a.mod_archive_location.map (fun _ => pyPathOpt a.path))
  let d := updStep d "mod_install_location".data
    (a.mod_install_location.map (fun _ => pyPathOpt a.path))
  let d := updStep d "name".data (a.name.map SqlVal.text)
  let d := updStep d "nexus_id".data (a.nexus_id.map SqlVal.text)
  let d := updStep d "path".data (a.path.map SqlVal.text)
  let d := updStep d "registered_at".data (a.registered_at.map SqlVal.text)
  let d := updStep d "symlink_target".data
    (a.symlink_target.map (fun _ => pyPathOpt a.path))
  let d := updStep d "symlinks".data
    (a.symlinks.map (fun m => SqlVal.text (jsonDumps m)))
  updStep d "version".data (a.version.map SqlVal.text)

/-- get_mod_by_id (mods.py 114-147): fetch_one of the fixed query
"SELECT * FROM mods WHERE id = ?". -/
def get_mod_by_id (i : Int) (db : List ModRow) : Option ModRow :=
  db.find? (fun r => sqlEqB r.id (SqlVal.int i))

/-- The collaborator executing the dynamically built UPDATE against the
games table: every SET key must name a games column, and the matching rows
get those columns set; an unknown column makes the driver raise, which
update (sqlite.py 571-621) catches, returning None. -/
def sqliteUpdateGames (sets : List (Str × SqlVal)) (i : Int) (db : List GameRow) :
    Option (List GameRow) :=
  if sets.all (fun kv => (gameColOfName kv.1).isSome) then
    some (db.map (fun r =>
      if sqlEqB r.id (SqlVal.int i) then
        sets.foldl (fun r2 kv =>
          match gameColOfName kv.1 with
          | some c => r2.setCol c kv.2
          | none => r2) r
      else r))
  else none

def sqliteUpdateMods (sets : List (Str × SqlVal)) (i : Int) (db : List ModRow) :
    Option (List ModRow) :=
  if sets.all (fun kv => (modColOfName kv.1).isSome) then
    some (db.map (fun r =>
      if sqlEqB r.id (SqlVal.int i) then
        sets.foldl (fun r2 kv =>
          match modColOfName kv.1 with
          | some c => r2.setCol c kv.2
          | none => r2) r
      else r))
  else none

/-- update_game (games.py 385-527): existence check by id, update_values
construction, empty-dict early failure, then the UPDATE. -/
def update_game (i : Int) (a : UpdateGameArgs) (db : List GameRow) :
    Bool × List GameRow :=
  match get_game_by_id i db with
  | none => (false, db)
  | some _ =>
    let uv := gamesUpdateValues a
    if uv = [] then (false, db)
    else
      match sqliteUpdateGames uv i db with
      | none => (false, db)
      | some db2 => (true, db2)

/-- update_mod (mods.py 545-702): existence check by id, update_values
construction, empty-dict early failure, then the UPDATE. -/
def update_mod (i : Int) (a : UpdateModArgs) (db : List ModRow) :
    Bool × List ModRow :=
  match get_mod_by_id i db with
  | none => (false, db)
  | some _ =>
    let uv := modsUpdateValues a
    if uv = [] then (false, db)
    else
      match sqliteUpdateMods uv i db with
      | none => (false, db)
      | some db2 => (true, db2)

/-- C8: for both entities, an update supplying zero fields is a no-op that
reports failure, and an update naming an id with no stored row reports
failure; in both failure cases no write reaches storage — the stored
table is returned unchanged. -/
theorem update_zero_fields_or_missing_id_fails (i : Int) (ga : UpdateGameArgs)
    (ma : UpdateModArgs) (gdb : List GameRow) (mdb : List ModRow) :
    ((gamesUpdateValues ga = [] ∨ get_game_by_id i gdb = none) →
      update_game i ga gdb = (false, gdb))
      ∧ ((modsUpdateValues ma = [] ∨ get_mod_by_id i mdb = none) →
        update_mod i ma mdb = (false, mdb)) := by
  constructor
  · rintro (huv | hid)
    · rw [update_game]
      cases hg : get_game_by_id i gdb
      · rfl
      · simp only [huv]
        rfl
    · rw [update_game, hid]
  · rintro (huv | hid)
    · rw [update_mod]
      cases hm : get_mod_by_id i mdb
      · rfl
      · simp only [huv]
        rfl
    · rw [update_mod, hid]

theorem update_zero_fields_or_missing_id_fails_witness :
    update_game 1 {} [wGameRow] = (false, [wGameRow])
      ∧ update_game 5 { name := some "X".data } [wGameRow] = (false, [wGameRow])
      ∧ update_mod 1 {} [wModRow] = (false, [wModRow])
      ∧ update_mod 5 { name := some "X".data } [wModRow] = (false, [wModRow]) :=
  ⟨(update_zero_fields_or_missing_id_fails 1 {} {} [wGameRow] [wModRow]).1
      (Or.inl (by decide)),
    (update_zero_fields_or_missing_id_fails 5 { name := some "X".data } {}
      [wGameRow] [wModRow]).1 (Or.inr (by decide)),
    (update_zero_fields_or_missing_id_fails 1 {} {} [wGameRow] [wModRow]).2
      (Or.inl (by decide)),
    (update_zero_fields_or_missing_id_fails 5 {} { name := some "X".data }
      [wGameRow] [wModRow]).2 (Or.inr (by decide))⟩

/-! ## Filesystem collaborator (utils/files.py) and the mod installer
(utils/mod_installer.py)

Paths are modelled as the component lists of absolute posix paths;
str(Path) joins them with slashes.  The filesystem is a finite map from
path to node; a node is a directory, a file — carrying, when it is a zip
archive, the relative file paths extractall produces, none for an
ordinary file or an archive whose suffix unpack_archive does not
recognize — or a symbolic link to a source path.  The installer reaches
the persistence service through the dispatcher; service.py registers the
service handlers persistently at startup, so the dispatch calls the
installer makes are modelled as direct invocations of the corresponding
handlers, with a ghost trace recording every dispatched event name in
dispatch order. -/

abbrev FsPath := List Str

/-- str(Path): slash-joined absolute path text. -/
def renderPath (p : FsPath) : Str :=
  p.foldl (fun acc c => acc ++ "/".data ++ c) []

inductive Node where
  | dir : Node
  | file : Option (List FsPath) → Node
  | link : FsPath → Node
deriving DecidableEq, Repr

abbrev Fs := List (FsPath × Node)

def fsGet (fs : Fs) (p : FsPath) : Option Node :=
  (fs.find? (fun e => e.1 = p)).map (fun e => e.2)

def fsSet (fs : Fs) (p : FsPath) (n : Node) : Fs :=
  if fs.any (fun e => e.1 = p) then
    fs.map (fun e => if e.1 = p then (p, n) else e)
  else fs ++ [(p, n)]

def fsRemove (fs : Fs) (p : FsPath) : Fs :=
  fs.filter (fun e => decide (e.1 ≠ p))

def isDirB (fs : Fs) (p : FsPath) : Bool :=
  match fsGet fs p with
  | some Node.dir => true
  | _ => false

/-- Whether q lies strictly below root. -/
def strictlyUnder (root q : FsPath) : Bool :=
  decide (q.take root.length = root ∧ root.length < q.length)

def isFileNode : Node → Bool
  | Node.file _ => true
  | _ => false

def isLinkNode : Node → Bool
  | Node.link _ => true
  | _ => false

/-- The nonempty prefixes of a path, shortest first. -/
def fsPrefixes (p : FsPath) : List FsPath :=
  (List.range p.length).map (fun k => p.take (k + 1))

/-- os.makedirs(..., exist_ok=True): creates every missing ancestor as a
directory; entries already present are left untouched (a conflicting
file raises, which create_directory catches). -/
def ensureDirs (fs : Fs) (q : FsPath) : Fs :=
  (fsPrefixes q).foldl (fun fs2 pre =>
    if (fsGet fs2 pre).isSome then fs2 else fsSet fs2 pre Node.dir) fs

/-- create_directory_if_not_exists (files.py 83-116): early return when
the path exists in any form, otherwise makedirs; never raises. -/
def create_directory_if_not_exists (p : FsPath) (fs : Fs) : Fs :=
  if (fsGet fs p).isSome then fs else ensureDirs fs p

/-- unpack_archive (files.py 756-807): extracts a zip archive's entries
below the destination, creating intermediate directories; a source whose
suffix is not handled is silently ignored; a missing or non-file source
makes ZipFile raise. -/
def unpack_archive (source destination : FsPath) (fs : Fs) :
    Except Unit Fs :=
  match fsGet fs source with
  | some (Node.file (some entries)) =>
    Except.ok (entries.foldl (fun fs2 rel =>
      let target := destination ++ rel
      fsSet (ensureDirs fs2 target.dropLast) target (Node.file none)) fs)
  | some (Node.file none) => Except.ok fs
  | _ => Except.error ()

/-- iterate_files (files.py 636-677): every regular file strictly below
the directory, in filesystem order. -/
def iterate_files (fs : Fs) (dir : FsPath) : List FsPath :=
  (fs.filter (fun e => strictlyUnder dir e.1 && isFileNode e.2)).map (fun e => e.1)

/-- create_symlink (files.py 197-277), posix branch: os.symlink places a
link at the target naming the source; it raises when the target exists or
its parent directory is missing, upon which the code falls back to
shutil.copy, which itself silently fails (file_copy catches) when the
source is not a file or the target parent is missing; a copy onto an
existing directory is modelled as the caught-error no-op.  The function
never raises. -/
def create_symlink (source target : FsPath) (fs : Fs) : Fs :=
  if (fsGet fs target).isNone && isDirB fs target.dropLast then
    fsSet fs target (Node.link source)
  else
    match fsGet fs source with
    | some (Node.file a) =>
      if isDirB fs target.dropLast then
        match fsGet fs target with
        | some Node.dir => fs
        | _ => fsSet fs target (Node.file a)
      else fs
    | _ => fs

/-- remove_symlink (files.py 710-730): os.remove with no exception
handler — it raises on a directory or a missing path. -/
def remove_symlink (p : FsPath) (fs : Fs) : Except Unit Fs :=
  match fsGet fs p with
  | some (Node.file _) => Except.ok (fsRemove fs p)
  | some (Node.link _) => Except.ok (fsRemove fs p)
  | _ => Except.error ()

/-- file_remove (files.py 457-491): os.remove with the exception caught
and logged; on a directory or a missing path the filesystem is left
unchanged. -/
def file_remove (p : FsPath) (fs : Fs) : Fs :=
  match fsGet fs p with
  | some (Node.file _) => fsRemove fs p
  | some (Node.link _) => fsRemove fs p
  | _ => fs

/-- The full state the installer acts on: both database tables, the
filesystem, and the ghost trace of dispatched event names. -/
structure World where
  games : List GameRow
  mods : List ModRow
  fs : Fs
  trace : List Str
deriving DecidableEq, Repr

def evGetGame : Str := "REQUEST_GET_GAME_BY_ID".data

def evUpdateMod : Str := "REQUEST_UPDATE_MOD".data

def evInstallSuccess : Str := "BROADCAST_MOD_INSTALL_SUCCESS".data

def evInstallFailed : Str := "BROADCAST_MOD_INSTALL_FAILED".data

def evUninstalled : Str := "BROADCAST_MOD_UNINSTALLED".data

/-- The mod dict as the installer reads it: the row fields install_mod
and uninstall_mod access, with the path-valued columns as paths. -/
structure InstMod where
  id : Int
  game_id : Int
  mod_archive_location : FsPath
  mod_install_location : FsPath
  symlink_target : FsPath

namespace Installer

/-- One step of the link walk (mod_installer.py 78-96): the target path is
the symlink target root joined with the file's path relative to the
staging root; the target parent directory is created when the source
parent is a directory; the link is created with the platform fallbacks;
the staged-to-destination pair is recorded unconditionally. -/
def linkStep (mod : InstMod) (acc : Fs × List (Str × Str)) (fp : FsPath) :
    Fs × List (Str × Str) :=
  let tp := mod.symlink_target ++ fp.drop mod.mod_install_location.length
  let fsA := if isDirB acc.1 fp.dropLast then
      create_directory_if_not_exists tp.dropLast acc.1
    else acc.1
  (create_symlink fp tp fsA, acc.2 ++ [(renderPath fp, renderPath tp)])

/-- install_mod (mod_installer.py 27-143): resolve the game through the
dispatcher, check the archive exists, unpack it into the staging
directory, walk every staged file creating destination links and
recording the mapping, dispatch REQUEST_UPDATE_MOD carrying the id, the
symlink target and the accumulated mapping, and broadcast success; an
exception inside the try block broadcasts the install-failed event and
returns false.  The update dispatch passes no path argument. -/
def install_mod (mod : InstMod) (w : World) : Bool × World :=
  let w1 : World := { w with trace := w.trace ++ [evGetGame] }
  match get_game_by_id mod.game_id w.games with
  | none => (false, w1)
  | some _ =>
    if (fsGet w.fs mod.mod_archive_location).isNone then (false, w1)
    else
      match unpack_archive mod.mod_archive_location mod.mod_install_location w.fs with
      | Except.error _ =>
        (false, { w1 with trace := w1.trace ++ [evInstallFailed] })
      | Except.ok fs1 =>
        let walk := (iterate_files fs1 mod.mod_install_location).foldl
          (linkStep mod) (fs1, [])
        let mods2 := (update_mod mod.id
          { symlink_target := some (renderPath mod.symlink_target),
            symlinks := some walk.2 } w.mods).2
        (true, { games := w.games, mods := mods2, fs := walk.1,
                 trace := w1.trace ++ [evUpdateMod, evInstallSuccess] })

/-- uninstall_mod (mod_installer.py 146-218): resolve the game, check the
install-staging path exists, remove_symlink at that path — which raises
on a directory — then file_remove the same path, and broadcast the
uninstalled event; any exception returns false.  No database write is
ever issued. -/
def uninstall_mod (mod : InstMod) (w : World) : Bool × World :=
  let w1 : World := { w with trace := w.trace ++ [evGetGame] }
  match get_game_by_id mod.game_id w.games with
  | none => (false, w1)
  | some _ =>
    if (fsGet w.fs mod.mod_install_location).isNone then (false, w1)
    else
      match remove_symlink mod.mod_install_location w.fs with
      | Except.error _ => (false, w1)
      | Except.ok fs1 =>
        let fs2 := file_remove mod.mod_install_location fs1
        (true, { w1 with fs := fs2, trace := w1.trace ++ [evUninstalled] })

/-- update_mod (mod_installer.py 221-249): uninstall, then install, each
failure short-circuiting to false. -/
def update_mod (mod : InstMod) (w : World) : Bool × World :=
  match uninstall_mod mod w with
  | (false, w1) => (false, w1)
  | (true, w1) =>
    match install_mod mod w1 with
    | (false, w2) => (false, w2)
    | (true, w2) => (true, w2)

end Installer

/-! ### Installer lemmas -/

lemma fsGet_cons (e : FsPath × Node) (rest : Fs) (p : FsPath) :
    fsGet (e :: rest) p = if e.1 = p then some e.2 else fsGet rest p := by
  by_cases he : e.1 = p <;> simp [fsGet, List.find?_cons, he]

lemma fsGet_fsRemove_ne (fs : Fs) (q p : FsPath) (h : p ≠ q) :
    fsGet (fsRemove fs q) p = fsGet fs p := by
  induction fs with
  | nil => rfl
  | cons e rest ih =>
    by_cases he : e.1 = q
    · have hep : ¬ e.1 = p := by
        rw [he]
        exact fun hh => h hh.symm
      rw [fsRemove, List.filter_cons, if_neg (by simp [he])]
      rw [fsGet_cons, if_neg hep]
      exact ih
    · rw [fsRemove, List.filter_cons, if_pos (by simp [he])]
      rw [fsGet_cons, fsGet_cons]
      by_cases hep : e.1 = p
      · rw [if_pos hep, if_pos hep]
      · rw [if_neg hep, if_neg hep]
        exact ih

lemma file_remove_frame (q p : FsPath) (fs : Fs) (h : p ≠ q) :
    fsGet (file_remove q fs) p = fsGet fs p := by
  rw [file_remove]
  rcases hq : fsGet fs q with _ | n
  · rfl
  · cases n with
    | dir => rfl
    | file a => exact fsGet_fsRemove_ne fs q p h
    | link s => exact fsGet_fsRemove_ne fs q p h

/-- The two observable shapes of an uninstall call: every failure path
returns false with only the get-game event appended and the rest of the
world untouched; the success path requires the staging path to hold a
file or a link, removes exactly that path, and appends the get-game and
uninstalled events. -/
lemma uninstall_cases (mod : InstMod) (w : World) :
    ((Installer.uninstall_mod mod w).1 = false
        ∧ (Installer.uninstall_mod mod w).2 = { w with trace := w.trace ++ [evGetGame] })
      ∨ ((Installer.uninstall_mod mod w).1 = true
        ∧ (Installer.uninstall_mod mod w).2
            = { games := w.games, mods := w.mods,
                fs := file_remove mod.mod_install_location
                  (fsRemove w.fs mod.mod_install_location),
                trace := w.trace ++ [evGetGame, evUninstalled] }
        ∧ ∃ n, fsGet w.fs mod.mod_install_location = some n
            ∧ (isFileNode n || isLinkNode n) = true) := by
  simp only [Installer.uninstall_mod]
  cases hg : get_game_by_id mod.game_id w.games with
  | none => exact Or.inl ⟨rfl, rfl⟩
  | some g =>
    rcases hn : fsGet w.fs mod.mod_install_location with _ | n
    · exact Or.inl ⟨rfl, rfl⟩
    · cases n with
      | dir =>
        have hrs : remove_symlink mod.mod_install_location w.fs = Except.error () := by
          rw [remove_symlink, hn]
        rw [hrs]
        exact Or.inl ⟨rfl, rfl⟩
      | file a =>
        have hrs : remove_symlink mod.mod_install_location w.fs
            = Except.ok (fsRemove w.fs mod.mod_install_location) := by
          rw [remove_symlink, hn]
        rw [hrs]
        refine Or.inr ⟨rfl, ?_, Node.file a, rfl, rfl⟩
        show World.mk w.games w.mods
            (file_remove mod.mod_install_location (fsRemove w.fs mod.mod_install_location))
            (w.trace ++ [evGetGame] ++ [evUninstalled]) = _
        rw [List.append_assoc]
        rfl
      | link s =>
        have hrs : remove_symlink mod.mod_install_location w.fs
            = Except.ok (fsRemove w.fs mod.mod_install_location) := by
          rw [remove_symlink, hn]
        rw [hrs]
        refine Or.inr ⟨rfl, ?_, Node.link s, rfl, rfl⟩
        show World.mk w.games w.mods
            (file_remove mod.mod_install_location (fsRemove w.fs mod.mod_install_location))
            (w.trace ++ [evGetGame] ++ [evUninstalled]) = _
        rw [List.append_assoc]
        rfl

/-- The three observable trace shapes of an install call: early failure
(no game or no archive) appends only the get-game event; an unpack
exception appends the install-failed broadcast; success appends the
update-mod dispatch and the success broadcast. -/
lemma install_cases (mod : InstMod) (w : World) :
    ((Installer.install_mod mod w).1 = false
        ∧ (Installer.install_mod mod w).2.trace = w.trace ++ [evGetGame])
      ∨ ((Installer.install_mod mod w).1 = false
        ∧ (Installer.install_mod mod w).2.trace = w.trace ++ [evGetGame, evInstallFailed])
      ∨ ((Installer.install_mod mod w).1 = true
        ∧ (Installer.install_mod mod w).2.trace
            = w.trace ++ [evGetGame, evUpdateMod, evInstallSuccess]) := by
  simp only [Installer.install_mod]
  cases hg : get_game_by_id mod.game_id w.games with
  | none => exact Or.inl ⟨rfl, rfl⟩
  | some g =>
    rcases ha : fsGet w.fs mod.mod_archive_location with _ | n
    · exact Or.inl ⟨rfl, rfl⟩
    · rcases hu : unpack_archive mod.mod_archive_location mod.mod_install_location w.fs
          with e | fs1
      · refine Or.inr (Or.inl ⟨rfl, ?_⟩)
        show w.trace ++ [evGetGame] ++ [evInstallFailed] = _
        rw [List.append_assoc]
        rfl
      · refine Or.inr (Or.inr ⟨rfl, ?_⟩)
        show w.trace ++ [evGetGame] ++ [evUpdateMod, evInstallSuccess] = _
        rw [List.append_assoc]
        rfl

/-- The filesystem frame of uninstall: any path other than the
install-staging path is untouched, and when the staging path holds a
directory the call fails with the filesystem fully unchanged. -/
lemma uninstall_fs_frame (mod : InstMod) (w : World) :
    (∀ p, p ≠ mod.mod_install_location →
        fsGet (Installer.uninstall_mod mod w).2.fs p = fsGet w.fs p)
      ∧ (fsGet w.fs mod.mod_install_location = some Node.dir →
        (Installer.uninstall_mod mod w).1 = false
          ∧ (Installer.uninstall_mod mod w).2.fs = w.fs) := by
  rcases uninstall_cases mod w with ⟨hb, hw⟩ | ⟨hb, hw, n, hn, hfl⟩
  · exact ⟨fun p hp => by rw [hw], fun hd => ⟨hb, by rw [hw]⟩⟩
  · refine ⟨fun p hp => ?_, fun hd => ?_⟩
    · rw [hw]
      show fsGet (file_remove mod.mod_install_location
          (fsRemove w.fs mod.mod_install_location)) p = _
      rw [file_remove_frame _ _ _ hp, fsGet_fsRemove_ne _ _ _ hp]
    · rw [hn] at hd
      injection hd with hd2
      subst hd2
      simp [isFileNode, isLinkNode] at hfl

/-- C10: uninstall_mod never dispatches the mod-update event — the events
it can dispatch are the get-game request and the uninstalled broadcast —
and it never writes to either database table, so the persisted Mod record,
its installed flag and symlinks map included, is identical before and
after the call; the only state it mutates is the filesystem at the mod's
install-staging path. -/
theorem uninstall_mod_no_update_event (mod : InstMod) (w : World) :
    (Installer.uninstall_mod mod w).2.mods = w.mods
      ∧ (Installer.uninstall_mod mod w).2.games = w.games
      ∧ (∃ evs, (Installer.uninstall_mod mod w).2.trace = w.trace ++ evs
          ∧ evUpdateMod ∉ evs)
      ∧ ∀ p, p ≠ mod.mod_install_location →
          fsGet (Installer.uninstall_mod mod w).2.fs p = fsGet w.fs p := by
  rcases huc : uninstall_cases mod w with ⟨hb, hw⟩ | ⟨hb, hw, n, hn, hfl⟩
  · rw [hw]
    exact ⟨rfl, rfl, ⟨[evGetGame], rfl, by decide⟩, fun p hp => rfl⟩
  · rw [hw]
    refine ⟨rfl, rfl, ⟨[evGetGame, evUninstalled], rfl, by decide⟩, fun p hp => ?_⟩
    show fsGet (file_remove mod.mod_install_location
        (fsRemove w.fs mod.mod_install_location)) p = _
    rw [file_remove_frame _ _ _ hp, fsGet_fsRemove_ne _ _ _ hp]

/-- The spec's description of update: uninstall, and only when it
succeeds, install on the same record. -/
def uninstallThenInstall (mod : InstMod) (w : World) : Bool × World :=
  match Installer.uninstall_mod mod w with
  | (false, w1) => (false, w1)
  | (true, w1) => Installer.install_mod mod w1

/-- C9: update_mod is observably equal to uninstall followed by install on
the same record — false immediately without attempting install when
uninstall fails, false when install then fails, true when both succeed —
and in the success case the trace shows the uninstalled broadcast strictly
before the install-succeeded broadcast. -/
theorem update_mod_is_uninstall_then_install (mod : InstMod) (w : World) :
    Installer.update_mod mod w = uninstallThenInstall mod w
      ∧ ((Installer.update_mod mod w).1 = true →
        (Installer.update_mod mod w).2.trace
          = w.trace ++ [evGetGame, evUninstalled, evGetGame, evUpdateMod,
              evInstallSuccess]) := by
  constructor
  · rw [Installer.update_mod, uninstallThenInstall]
    rcases hu : Installer.uninstall_mod mod w with ⟨b, w1⟩
    cases b
    · rfl
    · show (match Installer.install_mod mod w1 with
        | (false, w2) => (false, w2)
        | (true, w2) => (true, w2)) = Installer.install_mod mod w1
      rcases hi : Installer.install_mod mod w1 with ⟨b2, w2⟩
      cases b2 <;> rfl
  · intro hs
    rw [Installer.update_mod] at hs
    rcases hu : Installer.uninstall_mod mod w with ⟨b, w1⟩
    rw [hu] at hs
    cases b
    · exact Bool.noConfusion hs
    · rcases uninstall_cases mod w with ⟨hfalse, _⟩ | ⟨_, hw, _⟩
      · rw [hu] at hfalse
        exact Bool.noConfusion hfalse
      · rw [hu] at hw
        have hw1 : w1 = World.mk w.games w.mods
            (file_remove mod.mod_install_location
              (fsRemove w.fs mod.mod_install_location))
            (w.trace ++ [evGetGame, evUninstalled]) := hw
        have hs2 : (match Installer.install_mod mod w1 with
            | (false, w2) => ((false : Bool), w2)
            | (true, w2) => ((true : Bool), w2)).1 = true := hs
        rw [Installer.update_mod, hu]
        show (match Installer.install_mod mod w1 with
          | (false, w2) => ((false : Bool), w2)
          | (true, w2) => ((true : Bool), w2)).2.trace = _
        rcases hi : Installer.install_mod mod w1 with ⟨b2, w2⟩
        rw [hi] at hs2
        cases b2
        · exact Bool.noConfusion hs2
        · rcases install_cases mod w1 with ⟨hf, _⟩ | ⟨hf, _⟩ | ⟨_, htr⟩
          · rw [hi] at hf
            exact Bool.noConfusion hf
          · rw [hi] at hf
            exact Bool.noConfusion hf
          · rw [hi] at htr
            show w2.trace = _
            rw [htr, hw1]
            show (w.trace ++ [evGetGame, evUninstalled])
                ++ [evGetGame, evUpdateMod, evInstallSuccess] = _
            rw [List.append_assoc]
            rfl

/-! ### Concrete installer worlds -/

/-- A filesystem with a one-file zip archive, a game data directory, and
a staging root. -/
def iFs : Fs :=
  [(["archives".data], Node.dir),
   (["archives".data, "m.zip".data], Node.file (some [["a.txt".data]])),
   (["game".data], Node.dir),
   (["game".data, "Data".data], Node.dir),
   (["staging".data], Node.dir)]

def iMod : InstMod :=
  { id := 1, game_id := 1,
    mod_archive_location := ["archives".data, "m.zip".data],
    mod_install_location := ["staging".data, "m".data],
    symlink_target := ["game".data, "Data".data] }

def iWorld : World :=
  { games := [wGameRow], mods := [wModRow], fs := iFs, trace := [] }

/-- The same world with the staging path present as a plain file, the one
form the uninstall remove_symlink call can delete. -/
def iWorldFile : World :=
  { games := [wGameRow], mods := [wModRow],
    fs := iFs ++ [(["staging".data, "m".data], Node.file none)], trace := [] }

/-- The destination link the walk of iWorld creates. -/
def iLinkPath : FsPath := ["game".data, "Data".data, "a.txt".data]

def countLinksUnder (root : FsPath) (fs : Fs) : Nat :=
  (fs.filter (fun e => strictlyUnder root e.1 && isLinkNode e.2)).length

/-- C3 (code bug): after a successful install the stored Mod row's
symlinks column is the JSON encoding of the mapping accumulated during
the link walk — that half of the claim holds — but its symlink_target
column is NULL, not the mod's configured symlink target: update_mod
computes the symlink_target value from the path parameter (a copy-paste
slip contrary to its own docstring), and the installer's update dispatch
carries no path, so None is bound.  Evaluated at a concrete world whose
archive holds one file. -/
theorem install_persists_null_symlink_target :
    (Installer.install_mod iMod iWorld).1 = true
      ∧ (Installer.install_mod iMod iWorld).2.mods.map
          (fun r => (r.symlink_target, r.symlinks))
        = [(SqlVal.null,
            SqlVal.text (jsonDumps
              [("/staging/m/a.txt".data, "/game/Data/a.txt".data)]))]
      ∧ SqlVal.text (renderPath iMod.symlink_target) ≠ SqlVal.null := by
  exact ⟨by decide, by decide, by decide⟩

/-- C4 (corrected): uninstall after install does not remove the created
destination links.  Every filesystem path other than the mod's
install-staging path — in particular every link below the symlink target
root, staging aside — is identical before and after uninstall; and when
the staging path is a directory, the normal state after an install that
unpacked files, uninstall fails outright and the filesystem is fully
unchanged. -/
theorem uninstall_after_install_keeps_target_links (mod : InstMod) (w : World) :
    (∀ p, p ≠ mod.mod_install_location →
        fsGet (Installer.uninstall_mod mod (Installer.install_mod mod w).2).2.fs p
          = fsGet (Installer.install_mod mod w).2.fs p)
      ∧ (fsGet (Installer.install_mod mod w).2.fs mod.mod_install_location
            = some Node.dir →
          (Installer.uninstall_mod mod (Installer.install_mod mod w).2).1 = false
            ∧ (Installer.uninstall_mod mod (Installer.install_mod mod w).2).2.fs
                = (Installer.install_mod mod w).2.fs) :=
  uninstall_fs_frame mod (Installer.install_mod mod w).2

theorem uninstall_after_install_keeps_target_links_witness :
    fsGet (Installer.uninstall_mod iMod (Installer.install_mod iMod iWorld).2).2.fs
        iLinkPath
      = fsGet (Installer.install_mod iMod iWorld).2.fs iLinkPath
      ∧ (Installer.uninstall_mod iMod (Installer.install_mod iMod iWorld).2).1
          = false :=
  ⟨(uninstall_after_install_keeps_target_links iMod iWorld).1 iLinkPath (by decide),
    ((uninstall_after_install_keeps_target_links iMod iWorld).2 (by decide)).1⟩

/-- C4 counterexample: on a world whose archive holds one file, install
succeeds and creates one link under the target root; the following
uninstall returns false and still leaves that one link — not zero — under
the symlink target root. -/
theorem install_then_uninstall_leaves_links :
    (Installer.install_mod iMod iWorld).1 = true
      ∧ countLinksUnder iMod.symlink_target
          (Installer.install_mod iMod iWorld).2.fs = 1
      ∧ (Installer.uninstall_mod iMod (Installer.install_mod iMod iWorld).2).1
          = false
      ∧ countLinksUnder iMod.symlink_target
          (Installer.uninstall_mod iMod (Installer.install_mod iMod iWorld).2).2.fs
        = 1 := by
  exact ⟨by decide, by decide, by decide, by decide⟩

theorem update_mod_is_uninstall_then_install_witness :
    (Installer.update_mod iMod iWorldFile).1 = true
      ∧ (Installer.update_mod iMod iWorldFile).2.trace
          = iWorldFile.trace ++ [evGetGame, evUninstalled, evGetGame, evUpdateMod,
              evInstallSuccess] :=
  ⟨by decide, (update_mod_is_uninstall_then_install iMod iWorldFile).2 (by decide)⟩

theorem uninstall_mod_no_update_event_witness :
    (Installer.uninstall_mod iMod iWorldFile).2.mods = iWorldFile.mods
      ∧ fsGet (Installer.uninstall_mod iMod iWorldFile).2.fs iLinkPath
          = fsGet iWorldFile.fs iLinkPath :=
  ⟨(uninstall_mod_no_update_event iMod iWorldFile).1,
    (uninstall_mod_no_update_event iMod iWorldFile).2.2.2 iLinkPath (by decide)⟩

end ModManager
